import Mathlib

/-!
Verification of the `GithubAuth` class of flask-github (`flask_github.py`).

The Python class is embedded shallowly:

* Python dicts become association lists (`List (String × β)`) with
  the Python `dict.update` semantics (`dictUpdate`: replace in place, else
  append); Python `None` inside a dict value becomes `Option.none`.
* The outbound HTTP world (`requests.session().request`) becomes an
  oracle `http : HttpRequest → HttpResponse`; every operation that
  performs I/O also returns the list of requests it issued, in order.
* The mutable instance (`self`) is threaded explicitly: operations that
  assign to a field of `self` return the updated `GithubAuth` value.
* Python 2 stdlib helpers used by the class (`urllib.urlencode`,
  `urllib.quote_plus`, `urlparse.parse_qs`, `urllib.unquote`) are
  reimplemented faithfully below.
-/

set_option autoImplicit false

namespace FlaskGithub

/-- Value stored for one key of the decoded token-exchange mapping:
after the collapsing loop of `handle_response`, a key holds either a
scalar string (exactly one value) or a list of strings. -/
inductive QVal where
  | scalar : String → QVal
  | seq : List String → QVal
  deriving DecidableEq, Repr

/-- One outbound HTTP request as handed to `self.session.request(method,
url, params)`.  A parameter value of `none` models Python `None`. -/
structure HttpRequest where
  method : String
  url : String
  params : List (String × Option String)
  deriving DecidableEq, Repr

/-- Answer of the outside world to an outbound request: status code,
raw body (`response.content`) and decoded JSON body (`response.json()`),
the latter modelled as a flat string-to-string mapping (all the class
reads from it is the `login` field of the user object). -/
structure HttpResponse where
  status_code : Nat
  content : String
  json : List (String × String)
  deriving DecidableEq, Repr

/-- The value returned by the Flask `redirect(url)` helper: a response
whose target is `location`. -/
structure Redirect where
  location : String
  deriving DecidableEq, Repr

/-- Python `d[k] = v` / `d.update({k: v})` on an association list:
replace the value of the first matching key in place, otherwise append
the new pair at the end. -/
def dictUpdate {β : Type} (d : List (String × β)) (k : String) (v : β) :
    List (String × β) :=
  match d with
  | [] => [(k, v)]
  | (k1, v1) :: rest =>
      if k1 = k then (k1, v) :: rest else (k1, v1) :: dictUpdate rest k v

/-- Python `d.get(k)` (also Flask `request.args.get(k)`): the value of
the first matching key, or `None`. -/
def dictGet {β : Type} (d : List (String × β)) (k : String) : Option β :=
  match d with
  | [] => none
  | (k1, v1) :: rest => if k1 = k then some v1 else dictGet rest k

/-- Python `k in d` (also the `code in request.args` membership test of
`authorized_handler`). -/
def dictContains {β : Type} (d : List (String × β)) (k : String) : Bool :=
  (dictGet d k).isSome

/-! ### Python 2 `urllib.urlencode` / `quote_plus` -/

/-- Python 2 `urllib.always_safe` membership: ASCII letters, digits,
`_`, `.`, `-` pass through percent-encoding unchanged. -/
def alwaysSafe (c : Char) : Bool :=
  c.isAlpha || c.isDigit || c = '_' || c = '.' || c = '-'

/-- Upper-case hexadecimal digit, as produced by Python 2
`urllib.quote`. -/
def hexUpper (n : Nat) : Char :=
  if n < 10 then Char.ofNat (48 + n) else Char.ofNat (65 + (n - 10))

/-- Percent-encode a single character (byte) as `quote_plus` does:
safe characters unchanged, space becomes `+`, everything else becomes
`%XX` with upper-case hex. -/
def quoteChar (c : Char) : String :=
  if alwaysSafe c then String.singleton c
  else if c = ' ' then "+"
  else String.mk ['%', hexUpper (c.toNat / 16 % 16), hexUpper (c.toNat % 16)]

/-- Python 2 `urllib.quote_plus` (with its default empty `safe` set). -/
def quote_plus (s : String) : String :=
  String.join (s.data.map quoteChar)

/-- Python 2 `urllib.urlencode` over a sequence of key/value pairs:
`quote_plus` of the key, then `=`, then `quote_plus` of the value,
joined by `&`. -/
def urlencode (ps : List (String × String)) : String :=
  String.intercalate "&" (ps.map fun kv => quote_plus kv.1 ++ "=" ++ quote_plus kv.2)

/-! ### Python 2 `urlparse.parse_qs` and `urllib.unquote` -/

/-- Python `s.split(sep)` on a character list (split with an explicit
separator: empty pieces are kept). -/
def splitOnChar (sep : Char) : List Char → List (List Char)
  | [] => [[]]
  | c :: cs =>
      let rest := splitOnChar sep cs
      if c = sep then [] :: rest
      else
        match rest with
        | [] => [[c]]
        | piece :: more => (c :: piece) :: more

/-- Python `s.split(sep, 1)`: split at the first occurrence of `sep`,
or `none` when `sep` does not occur. -/
def splitFirstOn (sep : Char) : List Char → Option (List Char × List Char)
  | [] => none
  | c :: cs =>
      if c = sep then some ([], cs)
      else
        match splitFirstOn sep cs with
        | none => none
        | some (a, b) => some (c :: a, b)

/-- Hexadecimal digit test, as accepted by Python `int(s, 16)`. -/
def isHexChar (c : Char) : Bool :=
  c.isDigit || ('a' ≤ c && c ≤ 'f') || ('A' ≤ c && c ≤ 'F')

/-- Numeric value of a hexadecimal digit. -/
def hexVal (c : Char) : Nat :=
  if c.isDigit then c.toNat - 48
  else if 'a' ≤ c then c.toNat - 97 + 10
  else c.toNat - 65 + 10

/-- Decode one piece following a `%` in Python 2 `urllib.unquote`: the
first (up to) two characters are parsed as hex and replaced by the
corresponding character; on failure the `%` is kept literally. -/
def unquotePiece (piece : List Char) : List Char :=
  match piece with
  | c1 :: c2 :: tail =>
      if isHexChar c1 && isHexChar c2 then
        Char.ofNat (hexVal c1 * 16 + hexVal c2) :: tail
      else '%' :: piece
  | [c1] => if isHexChar c1 then [Char.ofNat (hexVal c1)] else ['%', c1]
  | [] => ['%']

/-- Python 2 `urllib.unquote`: split on `%` and decode each following
piece. -/
def unquote (s : String) : String :=
  match splitOnChar '%' s.data with
  | [] => ""
  | first :: rest => String.mk (first ++ rest.flatMap unquotePiece)

/-- Python `s.replace` turning each plus sign into a space, applied by
`parse_qsl` before unquoting. -/
def plusToSpace (s : String) : String :=
  String.mk (s.data.map fun c => if c = '+' then ' ' else c)

/-- Python 2 `urlparse.parse_qsl` with default arguments
(`keep_blank_values=False`, `strict_parsing=False`): split the query
string on `&` and `;`, drop empty chunks, chunks without `=`, and
chunks with an empty value, and `unquote` names and values after
turning `+` into spaces. -/
def parse_qsl (qs : String) : List (String × String) :=
  ((splitOnChar '&' qs.data).flatMap (splitOnChar ';')).filterMap fun chunk =>
    match splitFirstOn '=' chunk with
    | none => none
    | some (n, v) =>
        if v = [] then none
        else some (unquote (plusToSpace (String.mk n)),
                   unquote (plusToSpace (String.mk v)))

/-- Group step of `parse_qs`: append `v` to the entry for `k`, or
start a fresh singleton entry. -/
def qsInsert (d : List (String × List String)) (k : String) (v : String) :
    List (String × List String) :=
  match d with
  | [] => [(k, [v])]
  | (k1, vs) :: rest =>
      if k1 = k then (k1, vs ++ [v]) :: rest else (k1, vs) :: qsInsert rest k v

/-- Python 2 `urlparse.parse_qs`: the pairs of `parse_qsl`, grouped by
key into lists of values. -/
def parse_qs (qs : String) : List (String × List String) :=
  (parse_qsl qs).foldl (fun d kv => qsInsert d kv.1 kv.2) []

/-- Value transformation of the collapsing loop of `handle_response`
(lines 102-104): a one-element value list becomes its scalar element,
any other list stays a sequence. -/
def collapseVal (vs : List String) : QVal :=
  match vs with
  | [v] => QVal.scalar v
  | _ => QVal.seq vs

/-- The collapsing loop of `handle_response` (lines 102-104): every key
whose value list has exactly one element is rebound to that scalar;
other keys keep their list. -/
def collapse (d : List (String × List String)) : List (String × QVal) :=
  d.map fun kv => (kv.1, collapseVal kv.2)

/-- The decoding step of `handle_response` (lines 101-105):
`parse_qs(response.content)` followed by the single-value collapse. -/
def decodeTokenBody (content : String) : List (String × QVal) :=
  collapse (parse_qs content)

/-! ### The `GithubAuth` class -/

/-- Instance state of `GithubAuth`.  `get_access_token` is the
registered token-getter callable (default returns `None`); `user` is
the memoized user mapping (default unset).  The `requests` session
object is represented by the `http` oracle passed to each operation. -/
structure GithubAuth where
  user : Option (List (String × String))
  client_id : String
  session_key : String
  client_secret : String
  get_access_token : Unit → Option String
  base_url : String
  base_auth_url : String

/-- Constructor `GithubAuth.__init__` (lines 23-40). -/
def init (client_id client_secret session_key : String) : GithubAuth :=
  { user := none
    client_id := client_id
    session_key := session_key
    client_secret := client_secret
    get_access_token := fun _ => none
    base_url := "https://api.github.com/"
    base_auth_url := "https://github.com/login/oauth/" }

/-- Method `access_token_getter` (lines 42-48): registers `f` as the
access-token getter and returns `f` (decorator style).  The updated
instance is returned alongside. -/
def access_token_getter (g : GithubAuth) (f : Unit → Option String) :
    (Unit → Option String) × GithubAuth :=
  (f, { g with get_access_token := f })

/-- Method `authorize` (lines 50-64): builds the params dict (always
`client_id`; `redirect_uri` and `scope` only when supplied), urlencodes
it onto the authorize endpoint, and returns the redirect. -/
def authorize (g : GithubAuth) (callback_url scope : Option String) : Redirect :=
  let params : List (String × String) := [("client_id", g.client_id)]
  let params :=
    match callback_url with
    | some u => dictUpdate params "redirect_uri" u
    | none => params
  let params :=
    match scope with
    | some s => dictUpdate params "scope" s
    | none => params
  Redirect.mk (g.base_auth_url ++ "authorize?" ++ urlencode params)

/-- Token resolution of `raw_request` (lines 74-75): the explicit
argument when given, otherwise the result of the registered getter. -/
def resolveToken (g : GithubAuth) (access_token : Option String) : Option String :=
  match access_token with
  | some t => some t
  | none => g.get_access_token ()

/-- Result of `raw_request`: the response, the parameter dict as it
stands after the update that inserts the `access_token` key (when the
caller passed a dict, Python mutates that very dict in place, so this is
also what the dict held by the caller contains after the call), and the
issued requests. -/
structure RawResult where
  resp : HttpResponse
  finalParams : List (String × Option String)
  log : List HttpRequest
  deriving Repr

/-- Method `raw_request` (lines 66-77): appends `access_token` to the params
and issues one request `method url params` through the session. -/
def raw_request (g : GithubAuth) (http : HttpRequest → HttpResponse)
    (base_url resource : String) (params : Option (List (String × Option String)))
    (method : String) (access_token : Option String) : RawResult :=
  let url := base_url ++ resource
  let params0 :=
    match params with
    | none => []
    | some d => d
  let finalParams := dictUpdate params0 "access_token" (resolveToken g access_token)
  let req : HttpRequest := { method := method, url := url, params := finalParams }
  { resp := http req, finalParams := finalParams, log := [req] }

/-- Method `get_resource` (lines 79-85): a GET against `base_url + resource`,
returning the response together with its decoded JSON body. -/
def get_resource (g : GithubAuth) (http : HttpRequest → HttpResponse)
    (resource : String) (params : Option (List (String × Option String)))
    (access_token : Option String) :
    (HttpResponse × List (String × String)) × List HttpRequest :=
  let r := raw_request g http g.base_url resource params "GET" access_token
  ((r.resp, r.resp.json), r.log)

/-- Method `handle_response` (lines 87-105): POSTs the dict of `code`
(read from the inbound query via `request.args.get`), `client_id` and
`client_secret` to the token endpoint and decodes the form-encoded
response body.  `args` is the query mapping of the inbound request. -/
def handle_response (g : GithubAuth) (http : HttpRequest → HttpResponse)
    (args : List (String × String)) : List (String × QVal) × List HttpRequest :=
  let params : List (String × Option String) :=
    [("code", dictGet args "code"),
     ("client_id", some g.client_id),
     ("client_secret", some g.client_secret)]
  let r := raw_request g http g.base_auth_url "access_token" (some params) "POST" none
  (decodeTokenBody r.resp.content, r.log)

/-- Method `handle_invalid_response` (lines 107-108): a `pass` body,
returning `None`. -/
def handle_invalid_response (_g : GithubAuth) : Option (List (String × QVal)) :=
  none

/-- The `decorated` wrapper produced by `authorized_handler`
(lines 110-123): when the inbound query has a `code`, exchange it and
pass the decoded mapping (a dict) to `f` as first argument; otherwise
pass the `None` of `handle_invalid_response`.  Remaining positional and
keyword arguments are forwarded unchanged. -/
def authorized_handler {α : Type} (g : GithubAuth) (http : HttpRequest → HttpResponse)
    (f : Option (List (String × QVal)) → List String → List (String × String) → α)
    (args0 : List (String × String)) (args : List String)
    (kwargs : List (String × String)) : α × List HttpRequest :=
  if dictContains args0 "code" then
    let r := handle_response g http args0
    (f (some r.1) args kwargs, r.2)
  else
    (f (handle_invalid_response g) args kwargs, [])

/-- Method `get_github_user` (lines 134-140): fetch `GET user` and
return the decoded body. -/
def get_github_user (g : GithubAuth) (http : HttpRequest → HttpResponse) :
    List (String × String) × List HttpRequest :=
  let r := get_resource g http "user" none none
  (r.1.2, r.2)

/-- Method `github_user` (lines 125-132): memoized user lookup; fetches
and stores the user on first call only. -/
def github_user (g : GithubAuth) (http : HttpRequest → HttpResponse) :
    List (String × String) × GithubAuth × List HttpRequest :=
  match g.user with
  | some u => (u, g, [])
  | none =>
      let r := get_github_user g http
      (r.1, { g with user := some r.1 }, r.2)

/-- The membership path of `has_org_access` (line 148). -/
def memberPath (organization login : String) : String :=
  "orgs/" ++ organization ++ "/members/" ++ login

/-- Method `has_org_access` (lines 142-150): reads the `login` field of
the user mapping (a missing key would raise `KeyError`, modelled as
`none`), GETs the membership resource, and compares the status code to
204. -/
def has_org_access (g : GithubAuth) (http : HttpRequest → HttpResponse)
    (organization : String) : Option Bool × GithubAuth × List HttpRequest :=
  let r0 := github_user g http
  match dictGet r0.1 "login" with
  | none => (none, r0.2.1, r0.2.2)
  | some login =>
      let g1 := r0.2.1
      let r := raw_request g1 http g1.base_url (memberPath organization login) none "GET" none
      (some (decide (r.resp.status_code = 204)), g1, r0.2.2 ++ r.log)

/-! ### Spec-side definitions and concrete instances -/

/-- Written from the spec sentence on `build_authorization_redirect`:
the query carries exactly the supplied parameters, in the sense that
`client_id` is always present, `redirect_uri` appears exactly when a
callback URL was supplied, `scope` exactly when a scope was supplied,
and nothing else.  Compared against the dict built by `authorize`. -/
def authorizeSpecParams (client_id : String) (callback_url scope : Option String) :
    List (String × String) :=
  [("client_id", client_id)]
    ++ (match callback_url with
        | some u => [("redirect_uri", u)]
        | none => [])
    ++ (match scope with
        | some s => [("scope", s)]
        | none => [])

/-- The membership-check request that `has_org_access` sends: a GET on
the member path, carrying only the `access_token` parameter obtained
from the registered getter. -/
def memberRequest (g : GithubAuth) (organization login : String) : HttpRequest :=
  { method := "GET"
    url := g.base_url ++ memberPath organization login
    params := [("access_token", g.get_access_token ())] }

/-- Concrete instance with the default (None-returning) token getter. -/
def gDef : GithubAuth := init "id1" "sec1" "skey"

/-- Concrete instance whose registered token getter returns a token. -/
def gTok : GithubAuth :=
  { init "id1" "sec1" "skey" with get_access_token := fun _ => some "tok" }

/-- Concrete world: the user resource answers with a `login` of
`alice`, the token endpoint answers a form-encoded token body, and
every other request answers 204 with an empty body. -/
def httpEx : HttpRequest → HttpResponse := fun r =>
  if r.url = "https://api.github.com/user" then
    { status_code := 200, content := "", json := [("login", "alice")] }
  else if r.method = "POST" then
    { status_code := 200, content := "access_token=t123&token_type=bearer", json := [] }
  else
    { status_code := 204, content := "", json := [] }

/-- Handler returning its first argument, used to observe what the
`authorized_handler` wrapper passes in. -/
def idHandler : Option (List (String × QVal)) → List String → List (String × String) →
    Option (List (String × QVal)) :=
  fun d _ _ => d

/-! ### Helper lemmas -/

/-- Looking up the key just written by `dictUpdate` yields the new
value. -/
theorem dictGet_dictUpdate {β : Type} (d : List (String × β)) (k : String) (v : β) :
    dictGet (dictUpdate d k v) k = some v := by
  induction d with
  | nil => simp [dictUpdate, dictGet]
  | cons kv rest ih =>
      obtain ⟨k1, v1⟩ := kv
      by_cases h : k1 = k <;> simp [dictUpdate, dictGet, h, ih]

/-- Lookup commutes with the collapsing loop: the collapsed dict maps
`k` to `collapseVal` of what the grouped dict maps `k` to. -/
theorem dictGet_collapse (d : List (String × List String)) (k : String)
    (vs : List String) (h : dictGet d k = some vs) :
    dictGet (collapse d) k = some (collapseVal vs) := by
  induction d with
  | nil => simp [dictGet] at h
  | cons kv rest ih =>
      obtain ⟨k1, vs1⟩ := kv
      by_cases hk : k1 = k
      · simp [dictGet, hk] at h
        simp [collapse, dictGet, hk, h]
      · simp [dictGet, hk] at h
        simpa [collapse, dictGet, hk] using ih h

/-- A value list that does not have exactly one element is left as a
sequence by the collapsing loop. -/
theorem collapseVal_of_length_ne_one (vs : List String) (h : vs.length ≠ 1) :
    collapseVal vs = QVal.seq vs := by
  match vs with
  | [] => rfl
  | [v] => exact absurd rfl h
  | v :: w :: t => rfl

/-- The instance returned by `github_user` is the original instance
with only the `user` field (re)bound to the returned mapping. -/
theorem github_user_state (g : GithubAuth) (http : HttpRequest → HttpResponse) :
    (github_user g http).2.1 = { g with user := some (github_user g http).1 } := by
  rcases g with ⟨u0, cid, sk, cs, gat, bu, bau⟩
  cases u0 <;> rfl

/-- The instance returned by `has_org_access` is the one returned by
the inner `github_user` call. -/
theorem has_org_access_state (g : GithubAuth) (http : HttpRequest → HttpResponse)
    (organization : String) :
    (has_org_access g http organization).2.1 = (github_user g http).2.1 := by
  cases h : dictGet (github_user g http).1 "login" <;> simp [has_org_access, h]

/-! ### Claims -/

/-- Claim C1: for every configuration and every combination of the
optional `callback_url` and `scope` arguments, `authorize` returns a
redirect to the base authorization URL plus `authorize?` plus the
urlencoding (percent-encoded values) of exactly the supplied
parameters: `client_id` always, `redirect_uri` and `scope` only when
supplied, nothing when unset. -/
theorem authorize_query_exact (g : GithubAuth) (callback_url scope : Option String) :
    authorize g callback_url scope =
      Redirect.mk (g.base_auth_url ++ "authorize?" ++
        urlencode (authorizeSpecParams g.client_id callback_url scope)) := by
  cases callback_url <;> cases scope <;> rfl

/-- Claim C10: `access_token_getter` returns the registered function
itself unchanged (decorator style) and the updated instance differs
from the original only in its `get_access_token` field, which now holds
that function. -/
theorem access_token_getter_spec (g : GithubAuth) (f : Unit → Option String) :
    (access_token_getter g f).1 = f ∧
    (access_token_getter g f).2 = { g with get_access_token := f } :=
  ⟨rfl, rfl⟩

/-- Claim C9: when the caller passes a params dict, `raw_request`
updates that dict with the `access_token` key (Python mutates it in
place, so the caller sees the entry afterwards) and the single request
it issues carries exactly the updated dict; through `get_resource` the
same updated dict reaches the wire. -/
theorem raw_request_updates_caller_params (g : GithubAuth)
    (http : HttpRequest → HttpResponse) (base_url resource : String)
    (d : List (String × Option String)) (method : String)
    (access_token : Option String) :
    (raw_request g http base_url resource (some d) method access_token).finalParams =
        dictUpdate d "access_token" (resolveToken g access_token) ∧
    dictGet (raw_request g http base_url resource (some d) method access_token).finalParams
        "access_token" = some (resolveToken g access_token) ∧
    (raw_request g http base_url resource (some d) method access_token).log =
        [{ method := method, url := base_url ++ resource,
           params := dictUpdate d "access_token" (resolveToken g access_token) }] ∧
    (get_resource g http resource (some d) access_token).2 =
        [{ method := "GET", url := g.base_url ++ resource,
           params := dictUpdate d "access_token" (resolveToken g access_token) }] :=
  ⟨rfl, dictGet_dictUpdate d "access_token" (resolveToken g access_token), rfl, rfl⟩

/-- Claim C2, counterexample: with a registered token getter returning
a token, the single POST issued by `handle_response` carries the
parameter keys `code`, `client_id`, `client_secret` and additionally
`access_token` (inserted by line 76), so its parameter set is not
exactly the claimed three keys. -/
theorem handle_response_param_set_counterexample :
    ((handle_response gTok httpEx [("code", "ABC123")]).2.map fun r =>
        r.params.map Prod.fst) =
      [["code", "client_id", "client_secret", "access_token"]] ∧
    (["code", "client_id", "client_secret"] : List String).contains "access_token"
      = false := by
  exact ⟨rfl, rfl⟩

/-- Claim C2, amended: for every inbound request whose query has a
`code` parameter, `handle_response` issues exactly one POST to the
token endpoint, whose parameters are `code` (from the inbound request),
`client_id` and `client_secret` (from the instance), plus the
`access_token` entry that `raw_request` always inserts, holding the
result of the registered token getter (`None` under the default
getter). -/
theorem handle_response_post_params (g : GithubAuth)
    (http : HttpRequest → HttpResponse) (args : List (String × String))
    (c : String) (h : dictGet args "code" = some c) :
    (handle_response g http args).2 =
      [{ method := "POST", url := g.base_auth_url ++ "access_token",
         params := [("code", some c), ("client_id", some g.client_id),
                    ("client_secret", some g.client_secret),
                    ("access_token", g.get_access_token ())] }] := by
  simp [handle_response, raw_request, dictUpdate, resolveToken, h]

/-- Witness for C2 at a concrete instance and inbound request. -/
theorem handle_response_post_params_witness :
    (handle_response gTok httpEx [("code", "ABC123")]).2 =
      [{ method := "POST", url := gTok.base_auth_url ++ "access_token",
         params := [("code", some "ABC123"), ("client_id", some gTok.client_id),
                    ("client_secret", some gTok.client_secret),
                    ("access_token", gTok.get_access_token ())] }] :=
  handle_response_post_params gTok httpEx [("code", "ABC123")] "ABC123" (by decide)

/-- Claim C3: the decoding step of `handle_response` yields scalars for
keys with exactly one value and sequences for the others; in
particular the two example bodies decode as the spec states. -/
theorem decode_token_body_spec :
    decodeTokenBody "access_token=tok123&token_type=bearer" =
      [("access_token", QVal.scalar "tok123"), ("token_type", QVal.scalar "bearer")] ∧
    decodeTokenBody "scope=repo&scope=user" = [("scope", QVal.seq ["repo", "user"])] ∧
    (∀ body k v, dictGet (parse_qs body) k = some [v] →
        dictGet (decodeTokenBody body) k = some (QVal.scalar v)) ∧
    (∀ body k vs, dictGet (parse_qs body) k = some vs → vs.length ≠ 1 →
        dictGet (decodeTokenBody body) k = some (QVal.seq vs)) := by
  refine ⟨by decide, by decide, ?_, ?_⟩
  · intro body k v h
    exact dictGet_collapse (parse_qs body) k [v] h
  · intro body k vs h hlen
    have := dictGet_collapse (parse_qs body) k vs h
    rwa [collapseVal_of_length_ne_one vs hlen] at this

/-- Witness for C3 at the repeated-key example body. -/
theorem decode_token_body_spec_witness :
    dictGet (decodeTokenBody "scope=repo&scope=user") "scope" =
      some (QVal.seq ["repo", "user"]) :=
  decode_token_body_spec.2.2.2 "scope=repo&scope=user" "scope" ["repo", "user"]
    (by decide) (by decide)

/-- Claim C4: when the inbound query has no `code` parameter, the
wrapper built by `authorized_handler` invokes the handler with the
`None` result of the no-op invalid-response path as first argument,
issues no outbound request, and returns normally. -/
theorem authorized_handler_no_code {α : Type} (g : GithubAuth)
    (http : HttpRequest → HttpResponse)
    (f : Option (List (String × QVal)) → List String → List (String × String) → α)
    (args0 : List (String × String)) (args : List String)
    (kwargs : List (String × String)) (h : dictContains args0 "code" = false) :
    authorized_handler g http f args0 args kwargs = (f none args kwargs, []) := by
  simp [authorized_handler, handle_invalid_response, h]

/-- Witness for C4 at a concrete codeless inbound request. -/
theorem authorized_handler_no_code_witness :
    authorized_handler gDef httpEx idHandler [("state", "xyz")] ["a"] [("k", "v")] =
      (none, []) :=
  authorized_handler_no_code gDef httpEx idHandler [("state", "xyz")] ["a"]
    [("k", "v")] (by decide)

/-- Claim C5: when the inbound query has a `code` parameter, the
wrapper built by `authorized_handler` performs the token exchange
exactly once (its outbound traffic is exactly the one request of that
single `handle_response` call) and returns the result of the handler
applied to the decoded mapping followed by the unchanged positional and
keyword arguments. -/
theorem authorized_handler_with_code {α : Type} (g : GithubAuth)
    (http : HttpRequest → HttpResponse)
    (f : Option (List (String × QVal)) → List String → List (String × String) → α)
    (args0 : List (String × String)) (args : List String)
    (kwargs : List (String × String)) (h : dictContains args0 "code" = true) :
    authorized_handler g http f args0 args kwargs =
      (f (some (handle_response g http args0).1) args kwargs,
        (handle_response g http args0).2) ∧
    (handle_response g http args0).2.length = 1 := by
  constructor
  · simp [authorized_handler, h]
  · rfl

/-- Witness for C5 at a concrete inbound request carrying a code. -/
theorem authorized_handler_with_code_witness :
    authorized_handler gDef httpEx idHandler [("code", "ABC123")] ["a"] [("k", "v")] =
      (idHandler (some (handle_response gDef httpEx [("code", "ABC123")]).1)
        ["a"] [("k", "v")],
        (handle_response gDef httpEx [("code", "ABC123")]).2) ∧
    (handle_response gDef httpEx [("code", "ABC123")]).2.length = 1 :=
  authorized_handler_with_code gDef httpEx idHandler [("code", "ABC123")] ["a"]
    [("k", "v")] (by decide)

/-- Claim C6: calling `github_user` twice on the same instance returns
the same mapping both times, stores that mapping in the instance after
the first call, and performs at most one outbound request across the
two calls (the second call performs none). -/
theorem github_user_memoizes (g : GithubAuth) (http : HttpRequest → HttpResponse) :
    (github_user (github_user g http).2.1 http).1 = (github_user g http).1 ∧
    (github_user (github_user g http).2.1 http).2.2 = [] ∧
    (github_user g http).2.1.user = some (github_user g http).1 ∧
    (github_user g http).2.2.length +
      (github_user (github_user g http).2.1 http).2.2.length ≤ 1 := by
  rcases g with ⟨u0, cid, sk, cs, gat, bu, bau⟩
  cases u0 <;>
    simp [github_user, get_github_user, get_resource, raw_request]

/-- Claim C7: `has_org_access` answers `true` exactly when the
membership GET for the fetched login comes back with status code 204,
and `false` for every other status code. -/
theorem has_org_access_iff_204 (g : GithubAuth) (http : HttpRequest → HttpResponse)
    (organization login : String)
    (h : dictGet (github_user g http).1 "login" = some login) :
    ((has_org_access g http organization).1 = some true ↔
      (http (memberRequest g organization login)).status_code = 204) ∧
    ((has_org_access g http organization).1 = some false ↔
      (http (memberRequest g organization login)).status_code ≠ 204) := by
  have hs := github_user_state g http
  simp only [has_org_access, h]
  rw [hs]
  simp [raw_request, memberRequest, dictUpdate, resolveToken, memberPath,
    decide_eq_true_eq]

/-- Witness for C7: against the concrete world, where the membership
check answers 204, the instance reports membership. -/
theorem has_org_access_iff_204_witness :
    ((has_org_access gDef httpEx "acme").1 = some true ↔
      (httpEx (memberRequest gDef "acme" "alice")).status_code = 204) ∧
    ((has_org_access gDef httpEx "acme").1 = some false ↔
      (httpEx (memberRequest gDef "acme" "alice")).status_code ≠ 204) :=
  has_org_access_iff_204 gDef httpEx "acme" "alice" (by decide)

/-- Claim C8: the configuration fields `client_id`, `client_secret`,
`session_key`, `base_url` and `base_auth_url` are unchanged by every
operation.  In this embedding the operations that can change the
instance at all are exactly those returning a `GithubAuth`
(`access_token_getter`, `github_user`, `has_org_access`; the state
returned by `authorized_handler` is untouched as it never returns one),
and each of them preserves all five fields. -/
theorem config_immutable (g : GithubAuth) (http : HttpRequest → HttpResponse)
    (f : Unit → Option String) (organization : String) :
    ((access_token_getter g f).2.client_id = g.client_id ∧
     (access_token_getter g f).2.client_secret = g.client_secret ∧
     (access_token_getter g f).2.session_key = g.session_key ∧
     (access_token_getter g f).2.base_url = g.base_url ∧
     (access_token_getter g f).2.base_auth_url = g.base_auth_url) ∧
    ((github_user g http).2.1.client_id = g.client_id ∧
     (github_user g http).2.1.client_secret = g.client_secret ∧
     (github_user g http).2.1.session_key = g.session_key ∧
     (github_user g http).2.1.base_url = g.base_url ∧
     (github_user g http).2.1.base_auth_url = g.base_auth_url) ∧
    ((has_org_access g http organization).2.1.client_id = g.client_id ∧
     (has_org_access g http organization).2.1.client_secret = g.client_secret ∧
     (has_org_access g http organization).2.1.session_key = g.session_key ∧
     (has_org_access g http organization).2.1.base_url = g.base_url ∧
     (has_org_access g http organization).2.1.base_auth_url = g.base_auth_url) := by
  have hg := github_user_state g http
  have ho := has_org_access_state g http organization
  refine ⟨⟨rfl, rfl, rfl, rfl, rfl⟩, ?_, ?_⟩
  · rw [hg]
    exact ⟨rfl, rfl, rfl, rfl, rfl⟩
  · rw [ho, hg]
    exact ⟨rfl, rfl, rfl, rfl, rfl⟩

end FlaskGithub
